import Mathlib

/-!
Verification of the `graph` tool handler of `kamath/graphing-calculator-mcp`
(`src/index.ts`). The handler string-templates an HTML document that embeds
the Desmos graphing-calculator widget, wraps it as a UI resource, and returns
it; a catch branch converts any construction failure into an error page
resource. We embed the handler as pure Lean functions: the current time
(`Date.now()`) and the thrown-or-not outcome of the try block become explicit
parameters.

JavaScript string numbers: the numeric viewport bounds are modelled as `Int`
(the examples in scope are integers, whose JS decimal rendering agrees with
`Int.repr`); `Date.now()` is modelled as a `Nat` millisecond count.
-/

namespace DesmosGraph

/-! ### JavaScript string primitives

`String.prototype.includes` and one-occurrence `String.prototype.replace`
(with a string pattern, JS `replace` rewrites only the first, leftmost
occurrence). `firstSplit pat s` returns the pieces of `s` around the first
occurrence of `pat`, scanning left to right. -/

def firstSplit (pat : List Char) : List Char → Option (List Char × List Char)
  | [] => if pat.isPrefixOf ([] : List Char) then some ([], []) else none
  | c :: cs =>
    if pat.isPrefixOf (c :: cs) then some ([], (c :: cs).drop pat.length)
    else
      match firstSplit pat cs with
      | none => none
      | some (x, y) => some (c :: x, y)

/-- JS `s.includes(pat)`. -/
def jsIncludes (s pat : String) : Bool :=
  (firstSplit pat.data s.data).isSome

/-- JS `s.replace(pat, repl)` with a string pattern: replaces the first
occurrence only. -/
def jsReplaceFirst (s pat repl : String) : String :=
  match firstSplit pat.data s.data with
  | none => s
  | some (x, y) => String.mk (x ++ repl.data ++ y)

/-- Number of (possibly overlapping) occurrences of `pat`. -/
def countOcc (pat : List Char) : List Char → Nat
  | [] => 0
  | c :: cs => (if pat.isPrefixOf (c :: cs) then 1 else 0) + countOcc pat cs

/-- JS `Array.prototype.map` with the element index (second callback
argument), starting at `k`. -/
def mapWithIndex (f : Nat → String → String) : Nat → List String → List String
  | _, [] => []
  | k, x :: xs => f k x :: mapWithIndex f (k + 1) xs

/-- JS `Array.prototype.join(sep)`. -/
def joinSep (sep : String) : List String → String
  | [] => ""
  | [x] => x
  | x :: y :: xs => x ++ sep ++ joinSep sep (y :: xs)

/-! ### Expression normalization (src/index.ts lines 133–141)

```js
let expression = func;
if (func.includes("y=")) {
  expression = func.replace("y=", "");
} else if (func.includes("=")) {
  expression = func;
} else {
  expression = func;
}
```
-/

def yEqPat : String := "y="

def eqPat : String := "="

def emptyStr : String := ""

def normalizeExpression (func : String) : String :=
  if jsIncludes func yEqPat then jsReplaceFirst func yEqPat emptyStr
  else if jsIncludes func eqPat then func
  else func

/-! ### Request parameters (src/index.ts lines 24–57)

Zod schema: `functions` is a required array of 1–10 strings; `title` and the
four bounds are optional; the three booleans default to `true`. Optional
parameters are `Option`s; the destructuring defaults (lines 49, 54–56) are
the `...D` accessors below. -/

structure ToolArgs where
  functions : List String
  title : Option String
  xMin : Option Int
  xMax : Option Int
  yMin : Option Int
  yMax : Option Int
  showGrid : Option Bool
  showKeypad : Option Bool
  showExpressions : Option Bool
deriving Repr, DecidableEq

def defaultTitle : String := "Function Graph"

def ToolArgs.titleD (a : ToolArgs) : String := a.title.getD defaultTitle

def ToolArgs.showGridD (a : ToolArgs) : Bool := a.showGrid.getD true

def ToolArgs.showKeypadD (a : ToolArgs) : Bool := a.showKeypad.getD true

def ToolArgs.showExpressionsD (a : ToolArgs) : Bool := a.showExpressions.getD true

/-! ### The success-path HTML template (src/index.ts lines 60–150)

The template literal is the concatenation of the fixed segments below with
the interpolated values between them. Braces are written `\x7b`/`\x7d` and
single quotes `\x27`. -/

def docSeg1 : String := "<!DOCTYPE html>\n<html lang=\"en\">\n<head>\n    <meta charset=\"UTF-8\">\n    <meta name=\"viewport\" content=\"width=device-width, initial-scale=1.0\">\n    <title>"

def docSeg2 : String := "</title>\n    <style>\n        body \x7b\n            margin: 0;\n            padding: 0;\n            background: white;\n            width: 100%;\n            height: 100vh;\n            overflow: hidden;\n        \x7d\n        #calculator \x7b\n            width: 100%;\n            height: 100vh;\n        \x7d\n    </style>\n</head>\n<body>\n    <div id=\"calculator\"></div>\n    \n    <script src=\"https://www.desmos.com/api/v1.11/calculator.js?apiKey=dcb31709b452b1cf9dc26972add0fda6\"></script>\n    \n    <script>\n        var calculator = Desmos.GraphingCalculator(document.getElementById(\x27calculator\x27), \x7b\n            keypad: "

def docSeg3 : String := ",\n            graphpaper: "

def docSeg4 : String := ",\n            expressions: "

def docSeg5 : String := ",\n            settingsMenu: true,\n            zoomButtons: true,\n            pointsOfInterest: true,\n            trace: true,\n            border: false,\n            lockViewport: false,\n            expressionsCollapsed: false,\n            capExpressionSize: false,\n            authorFeatures: false,\n            images: true,\n            folders: true,\n            notes: true,\n            sliders: true,\n            actions: \x27auto\x27,\n            substitutions: true,\n            links: true,\n            qwertyKeyboard: true,\n            distributions: true,\n            restrictedFunctions: false,\n            forceEnableGeometryFunctions: false,\n            pasteGraphLink: false,\n            pasteTableData: true,\n            clearIntoDegreeMode: false\n        \x7d);\n\n        "

def docSeg6 : String := "\n\n        "

def docSeg7 : String := "\n\n        calculator.setExpression(\x7b id: \x27fit\x27, latex: \x27fit()\x27 \x7d);\n        setTimeout(() => calculator.removeExpression(\x7b id: \x27fit\x27 \x7d), 1000);\n    </script>\n</body>\n</html>"

/-! Bounds block (lines 116–130): emitted only when all four of
`xMin, xMax, yMin, yMax` are `!== undefined`. -/

def boundsPre : String := "\n        calculator.setMathBounds(\x7b\n            left: "

def boundsRight : String := ",\n            right: "

def boundsBottom : String := ",\n            bottom: "

def boundsTop : String := ",\n            top: "

def boundsEnd : String := "\n        \x7d);\n        "

def boundsSegment : Option Int → Option Int → Option Int → Option Int → String
  | some va, some vb, some vc, some vd =>
    boundsPre ++ toString va ++ boundsRight ++ toString vb ++ boundsBottom
      ++ toString vc ++ boundsTop ++ toString vd ++ boundsEnd
  | _, _, _, _ => emptyStr

/-! Per-function statement (line 142):
`calculator.setExpression({ id: 'function${index}', latex: '${expression}' });` -/

def stmtPre : String := "calculator.setExpression(\x7b id: \x27function"

def stmtMid : String := "\x27, latex: \x27"

def stmtEnd : String := "\x27 \x7d);"

def exprStatement (index : Nat) (func : String) : String :=
  stmtPre ++ Nat.repr index ++ stmtMid ++ normalizeExpression func ++ stmtEnd

def exprStatements (fns : List String) : List String :=
  mapWithIndex exprStatement 0 fns

/-- The join separator of line 144: `"\n        "`. -/
def exprJoinSep : String := "\n        "

def functionsSegment (fns : List String) : String :=
  joinSep exprJoinSep (exprStatements fns)

/-- The whole success-path document (the template literal of lines 60–150). -/
def htmlContent (a : ToolArgs) : String :=
  docSeg1 ++ a.titleD ++ docSeg2 ++ toString a.showKeypadD ++ docSeg3
    ++ toString a.showGridD ++ docSeg4 ++ toString a.showExpressionsD ++ docSeg5
    ++ boundsSegment a.xMin a.xMax a.yMin a.yMax ++ docSeg6
    ++ functionsSegment a.functions ++ docSeg7

/-! ### Response envelope (src/index.ts lines 152–164, 167–231)

`createUIResource` comes from the external `@mcp-ui/server` package.
Modelled from the spec: §6 describes the produced artifact as an object with
`uri`, `content.type = "rawHtml"`, `content.htmlString` and
`encoding = "blob"`; the wrapper is therefore the identity on that record. -/

structure UIResourceContent where
  type : String
  htmlString : String
deriving Repr, DecidableEq

structure UIResource where
  uri : String
  content : UIResourceContent
  encoding : String
deriving Repr, DecidableEq

/-- Modelled from the spec: `createUIResource` of the external resource-wrapping
collaborator (not under src/); per spec §6 the artifact carries exactly the
given uri, content and encoding. -/
def createUIResource (uri : String) (content : UIResourceContent)
    (encoding : String) : UIResource :=
  ⟨uri, content, encoding⟩

structure ToolResponse where
  content : List UIResource
deriving Repr, DecidableEq

def rawHtmlType : String := "rawHtml"

def blobEncoding : String := "blob"

def successUriPrefix : String := "ui://desmos-graph/"

/-- Line 154: `` uri: `ui://desmos-graph/${Date.now()}` `` with the
current time passed in explicitly. -/
def successUri (now : Nat) : String := successUriPrefix ++ Nat.repr now

/-- Lines 153–164: the success response. -/
def graphSuccess (a : ToolArgs) (now : Nat) : ToolResponse :=
  ⟨[createUIResource (successUri now) ⟨rawHtmlType, htmlContent a⟩ blobEncoding]⟩

/-- A JavaScript thrown value: either an `Error` (with its `message`) or any
other value (line 219 `error instanceof Error ? error.message : ...`). -/
inductive ThrownValue where
  | jsError (message : String)
  | nonError
deriving Repr, DecidableEq

def unknownErrorText : String := "Unknown error occurred"

def errorMessageText : ThrownValue → String
  | .jsError m => m
  | .nonError => unknownErrorText

/-! ### The error-path HTML template (src/index.ts lines 171–224) -/

def errSeg1 : String := "\n<!DOCTYPE html>\n<html lang=\"en\">\n<head>\n    <meta charset=\"UTF-8\">\n    <meta name=\"viewport\" content=\"width=device-width, initial-scale=1.0\">\n    <title>Graph Creation Error</title>\n    <style>\n        body \x7b\n            font-family: -apple-system, BlinkMacSystemFont, \x27Segoe UI\x27, Roboto, sans-serif;\n            margin: 0;\n            padding: 20px;\n            background-color: #f6f8fa;\n            display: flex;\n            justify-content: center;\n            align-items: center;\n            min-height: 100vh;\n        \x7d\n        .error-container \x7b\n            background: white;\n            border-radius: 12px;\n            padding: 40px;\n            box-shadow: 0 4px 16px rgba(0,0,0,0.1);\n            text-align: center;\n            max-width: 500px;\n        \x7d\n        .error-icon \x7b\n            font-size: 48px;\n            margin-bottom: 20px;\n        \x7d\n        .error-title \x7b\n            color: #dc3545;\n            font-size: 24px;\n            margin-bottom: 16px;\n        \x7d\n        .error-message \x7b\n            color: #6c757d;\n            font-size: 16px;\n            line-height: 1.5;\n        \x7d\n    </style>\n</head>\n<body>\n    <div class=\"error-container\">\n        <div class=\"error-icon\">⚠️</div>\n        <div class=\"error-title\">Graph Creation Error</div>\n        <div class=\"error-message\">\n            Failed to create the function graph<br>\n            "

def errSeg2 : String := "\n        </div>\n    </div>\n</body>\n</html>\n            "

def errorHtml (e : ThrownValue) : String :=
  errSeg1 ++ errorMessageText e ++ errSeg2

def errorUri : String := "ui://error-component/desmos-graph"

/-- Lines 167–231: the catch-branch response. -/
def graphFailure (e : ThrownValue) : ToolResponse :=
  ⟨[createUIResource errorUri ⟨rawHtmlType, errorHtml e⟩ blobEncoding]⟩

/-- The whole handler (lines 47–232). The try block is pure string
construction; `outcome = some e` represents a collaborator throwing `e`
during construction, `none` the normal path. -/
def graphHandler (a : ToolArgs) (now : Nat) :
    Option ThrownValue → ToolResponse
  | none => graphSuccess a now
  | some e => graphFailure e

/-! ### Derived definitions used by the statements below -/

def yEqChars : List Char := ['y', '=']

/-- Decimal digit value of a character (inverse of `Nat.digitChar` below 10). -/
def digitToNat (c : Char) : Nat := c.toNat - 48

/-- Value of a most-significant-first decimal digit string. -/
def decValue (l : List Char) : Nat :=
  l.foldl (fun acc c => 10 * acc + digitToNat c) 0

/-- Everything of the success document before the per-function statements. -/
def htmlBeforeFns (a : ToolArgs) : String :=
  docSeg1 ++ a.titleD ++ docSeg2 ++ toString a.showKeypadD ++ docSeg3
    ++ toString a.showGridD ++ docSeg4 ++ toString a.showExpressionsD ++ docSeg5
    ++ boundsSegment a.xMin a.xMax a.yMin a.yMax ++ docSeg6

/-- Everything of the success document before the bounds block. -/
def htmlConfigPart (a : ToolArgs) : String :=
  docSeg1 ++ a.titleD ++ docSeg2 ++ toString a.showKeypadD ++ docSeg3
    ++ toString a.showGridD ++ docSeg4 ++ toString a.showExpressionsD ++ docSeg5

/-- Everything of the success document after the bounds block. -/
def htmlAfterBounds (a : ToolArgs) : String :=
  docSeg6 ++ functionsSegment a.functions ++ docSeg7

/-- Everything of the success document before the fixed auto-fit tail. -/
def htmlBeforeFit (a : ToolArgs) : String :=
  docSeg1 ++ a.titleD ++ docSeg2 ++ toString a.showKeypadD ++ docSeg3
    ++ toString a.showGridD ++ docSeg4 ++ toString a.showExpressionsD ++ docSeg5
    ++ boundsSegment a.xMin a.xMax a.yMin a.yMax ++ docSeg6
    ++ functionsSegment a.functions

def nlIndentStr : String := "\n        "

def setMathBoundsCall : String := "calculator.setMathBounds"

def boundsCallTail : String := "(\x7b\n            left: "

def zeroText : String := "0"

def trueText : String := "true"

def fitRegisterText : String := "calculator.setExpression(\x7b id: \x27fit\x27, latex: \x27fit()\x27 \x7d);"

def fitRemoveText : String := "setTimeout(() => calculator.removeExpression(\x7b id: \x27fit\x27 \x7d), 1000);"

/-- A UI resource with its uri forgotten (for the determinism statement). -/
def withoutUri (r : UIResource) : UIResourceContent × String :=
  (r.content, r.encoding)

/-! Concrete example inputs for the witness theorems. -/

def exFn1 : String := "y=x^2"

def exFn2 : String := "x=3"

def exFn3 : String := "y=x"

def exSq : String := "x^2"

def exInj : String := "x\x27);</script><script>alert(1)"

def exArgs : ToolArgs := ⟨[exFn1, exFn2], none, none, none, none, none, none, none, none⟩

def exBounds : ToolArgs :=
  ⟨[exFn3], none, some (-5), some 5, some (-5), some 5, none, none, none⟩

def exPartial : ToolArgs :=
  ⟨[exFn3], none, some (-5), some 5, none, some 5, none, none, none⟩

def exDefaults : ToolArgs := ⟨[exFn3], none, none, none, none, none, none, none, none⟩

def exInjArgs : ToolArgs := ⟨[exInj], none, none, none, none, none, none, none, none⟩

def exZero : ToolArgs :=
  ⟨[exFn3], none, some 0, some 0, some 0, some 0, none, none, none⟩

def waveTitle : String := "Wave"

/-- A request omitting only `showGrid`, with the title and the other two
booleans explicitly provided. -/
def exGridOnly : ToolArgs :=
  ⟨[exFn3], some waveTitle, none, none, none, none, none, some false, some false⟩

/-! ### Lemmas about `firstSplit` -/

theorem firstSplit_isSome_of_isPrefixOf (pat s : List Char)
    (h : pat.isPrefixOf s = true) : (firstSplit pat s).isSome = true := by
  cases s with
  | nil => simp [firstSplit, h]
  | cons c cs => simp [firstSplit, h]

theorem firstSplit_isSome_cons (pat : List Char) (c : Char) (cs : List Char)
    (h : (firstSplit pat cs).isSome = true) :
    (firstSplit pat (c :: cs)).isSome = true := by
  cases hfs : firstSplit pat cs with
  | none => rw [hfs] at h; simp at h
  | some xy =>
    obtain ⟨x, y⟩ := xy
    by_cases hp : pat.isPrefixOf (c :: cs) = true
    · simp [firstSplit, hp]
    · simp [firstSplit, hp, hfs]

/-- A pattern that occurs somewhere is found by `firstSplit`. -/
theorem firstSplit_isSome_append (pat p q : List Char) :
    (firstSplit pat (p ++ (pat ++ q))).isSome = true := by
  induction p with
  | nil =>
    simp only [List.nil_append]
    apply firstSplit_isSome_of_isPrefixOf
    simp [List.isPrefixOf_iff_prefix]
  | cons c p ih => exact firstSplit_isSome_cons _ _ _ ih

/-- A string that decomposes around the pattern satisfies JS `includes`. -/
theorem jsIncludes_of_decomp (s p pat q : String)
    (h : s = p ++ pat ++ q) : jsIncludes s pat = true := by
  subst h
  unfold jsIncludes
  rw [String.data_append, String.data_append, List.append_assoc]
  exact firstSplit_isSome_append _ _ _

theorem yEqPat_data : yEqPat.data = yEqChars := rfl

/-- `firstSplit` on `a ++ "y=" ++ b` with no occurrence inside `a` splits
exactly at that occurrence (no occurrence can straddle the boundary because
the pattern starts with `'y'` and its second character is `'='`). -/
theorem firstSplit_yEq_append :
    ∀ (a b : List Char), firstSplit yEqChars a = none →
      firstSplit yEqChars (a ++ (yEqChars ++ b)) = some (a, b) := by
  intro a
  induction a with
  | nil =>
    intro b _
    simp [firstSplit, yEqChars, List.isPrefixOf]
  | cons c a ih =>
    intro b h
    have hp : yEqChars.isPrefixOf (c :: a) = false := by
      cases hb : yEqChars.isPrefixOf (c :: a) with
      | false => rfl
      | true => simp [firstSplit, hb] at h
    have ha : firstSplit yEqChars a = none := by
      cases hfs : firstSplit yEqChars a with
      | none => rfl
      | some xy => obtain ⟨x, y⟩ := xy; simp [firstSplit, hp, hfs] at h
    have hp2 : yEqChars.isPrefixOf (c :: (a ++ (yEqChars ++ b))) = false := by
      cases a with
      | nil =>
        have h2 : ('=' == 'y') = false := by decide
        simp [yEqChars, List.isPrefixOf, h2]
      | cons d a' =>
        simp only [yEqChars, List.cons_append, List.isPrefixOf,
          Bool.and_eq_false_imp] at hp ⊢
        simpa using hp
    rw [List.cons_append]
    simp [firstSplit, hp2, ih b ha]

/-! ### Lemmas about `mapWithIndex` and `joinSep` -/

theorem mapWithIndex_length (f : Nat → String → String) :
    ∀ (l : List String) (k : Nat), (mapWithIndex f k l).length = l.length := by
  intro l
  induction l with
  | nil => intro k; rfl
  | cons x xs ih => intro k; simp [mapWithIndex, ih]

theorem mapWithIndex_getD (f : Nat → String → String) :
    ∀ (l : List String) (k i : Nat), i < l.length →
      (mapWithIndex f k l).getD i emptyStr = f (k + i) (l.getD i emptyStr) := by
  intro l
  induction l with
  | nil => intro k i h; simp at h
  | cons x xs ih =>
    intro k i h
    cases i with
    | zero => simp [mapWithIndex]
    | succ i =>
      simp only [mapWithIndex, List.getD_cons_succ]
      rw [ih (k + 1) i (by simpa using h)]
      congr 1
      omega

theorem joinSep_getD_decomp (sep : String) :
    ∀ (l : List String) (i : Nat), i < l.length →
      ∃ p q : String, joinSep sep l = p ++ l.getD i emptyStr ++ q := by
  intro l
  induction l with
  | nil => intro i h; simp at h
  | cons x xs ih =>
    intro i h
    cases xs with
    | nil =>
      have hi : i = 0 := by simpa [Nat.lt_one_iff] using h
      subst hi
      exact ⟨emptyStr, emptyStr, by simp [joinSep, emptyStr]⟩
    | cons y ys =>
      cases i with
      | zero =>
        refine ⟨emptyStr, sep ++ joinSep sep (y :: ys), ?_⟩
        simp [joinSep, emptyStr, String.append_assoc]
      | succ i =>
        obtain ⟨p, q, hpq⟩ := ih i (by simpa using h)
        refine ⟨x ++ sep ++ p, q, ?_⟩
        simp only [joinSep, List.getD_cons_succ, hpq, String.append_assoc]

/-! ### Injectivity of `Nat.repr` (decimal printing) -/

theorem digitToNat_digitChar : ∀ m, m < 10 → digitToNat (Nat.digitChar m) = m := by
  decide

theorem toDigitsCore_append (fuel : Nat) :
    ∀ (n : Nat) (ds : List Char),
      Nat.toDigitsCore 10 fuel n ds = Nat.toDigitsCore 10 fuel n [] ++ ds := by
  induction fuel with
  | zero => intro n ds; simp [Nat.toDigitsCore]
  | succ fuel ih =>
    intro n ds
    simp only [Nat.toDigitsCore]
    by_cases h : n / 10 = 0
    · simp [h]
    · simp only [if_neg h]
      rw [ih (n / 10) (Nat.digitChar (n % 10) :: ds),
        ih (n / 10) [Nat.digitChar (n % 10)]]
      simp [List.append_assoc]

theorem decValue_toDigitsCore :
    ∀ (fuel n : Nat), n < 10 ^ fuel →
      decValue (Nat.toDigitsCore 10 fuel n []) = n := by
  intro fuel
  induction fuel with
  | zero =>
    intro n h
    rw [pow_zero] at h
    have hn : n = 0 := by omega
    subst hn
    rfl
  | succ fuel ih =>
    intro n h
    simp only [Nat.toDigitsCore]
    by_cases h0 : n / 10 = 0
    · simp only [if_pos h0]
      have hn : n < 10 := by omega
      have : decValue [Nat.digitChar (n % 10)] = n % 10 := by
        simp [decValue, List.foldl, digitToNat_digitChar _ (Nat.mod_lt n (by decide))]
      rw [this, Nat.mod_eq_of_lt hn]
    · simp only [if_neg h0]
      rw [toDigitsCore_append]
      have hdiv : n / 10 < 10 ^ fuel := by
        rw [pow_succ] at h
        refine Nat.div_lt_of_lt_mul ?_
        omega
      have hmod := digitToNat_digitChar _ (Nat.mod_lt n (y := 10) (by decide))
      simp only [decValue, List.foldl_append, List.foldl] at *
      rw [ih (n / 10) hdiv, hmod]
      omega

theorem decValue_repr (n : Nat) : decValue (Nat.repr n).data = n := by
  have h : n < 10 ^ (n + 1) :=
    lt_of_lt_of_le (Nat.lt_pow_self (by decide) n)
      (Nat.pow_le_pow_right (by decide) (Nat.le_succ n))
  simpa [Nat.repr, Nat.toDigits, List.asString] using
    decValue_toDigitsCore (n + 1) n h

theorem natRepr_injective {m n : Nat} (h : Nat.repr m = Nat.repr n) : m = n := by
  have h2 := congrArg (fun s => decValue s.data) h
  simpa [decValue_repr] using h2

theorem successUri_injective {t1 t2 : Nat} (h : successUri t1 = successUri t2) :
    t1 = t2 := by
  apply natRepr_injective
  have hd := congrArg String.data h
  rw [successUri, successUri, String.data_append, String.data_append] at hd
  exact String.ext (List.append_cancel_left hd)

/-! ### Claim theorems -/

/-- C3: a function string containing `"y="` is registered with its first
occurrence of `"y="` removed (writing the string as `a ++ "y=" ++ b` with no
occurrence inside `a` pins down the first occurrence; none can straddle the
boundary since `'y' ≠ '='`); any other string — with some other `"="` or with
no `"="` — is registered verbatim. -/
theorem c3_normalization (func a b : String) :
    (func = a ++ yEqPat ++ b → jsIncludes a yEqPat = false →
        normalizeExpression func = a ++ b)
    ∧ (jsIncludes func yEqPat = false → normalizeExpression func = func) := by
  constructor
  · intro h1 h2
    have hnone : firstSplit yEqChars a.data = none := by
      rw [jsIncludes, yEqPat_data] at h2
      cases hfs : firstSplit yEqChars a.data with
      | none => rfl
      | some xy => rw [hfs] at h2; simp at h2
    have hdata : func.data = a.data ++ (yEqChars ++ b.data) := by
      rw [h1, String.data_append, String.data_append, yEqPat_data, List.append_assoc]
    have hsplit : firstSplit yEqPat.data func.data = some (a.data, b.data) := by
      rw [yEqPat_data, hdata]
      exact firstSplit_yEq_append a.data b.data hnone
    have hinc : jsIncludes func yEqPat = true := by
      rw [jsIncludes, hsplit]; rfl
    simp only [normalizeExpression, hinc, if_true]
    simp only [jsReplaceFirst, hsplit]
    apply String.ext
    simp [String.data_append, emptyStr]
  · intro h
    simp [normalizeExpression, h]

/-- Witness for C3 at the spec's own examples: `"y=x^2"` normalizes to
`"x^2"` and `"x=3"` passes through unchanged. -/
theorem c3_normalization_witness :
    normalizeExpression exFn1 = emptyStr ++ exSq
    ∧ normalizeExpression exFn2 = exFn2 :=
  ⟨(c3_normalization exFn1 emptyStr exSq).1 (by decide) (by decide),
   (c3_normalization exFn2 emptyStr emptyStr).2 (by decide)⟩

/-- C1: for a request with 1–10 functions the document is the fixed prefix,
then the joined list of expression-registration statements, then the fixed
tail; the statement list has exactly one entry per input function, and the
`i`-th entry registers id `function<i>` with the normalized expression text
of the `i`-th input function. -/
theorem c1_expression_statements (a : ToolArgs)
    (_h1 : 1 ≤ a.functions.length) (_h2 : a.functions.length ≤ 10) :
    htmlContent a = htmlBeforeFns a ++ functionsSegment a.functions ++ docSeg7
    ∧ functionsSegment a.functions = joinSep exprJoinSep (exprStatements a.functions)
    ∧ (exprStatements a.functions).length = a.functions.length
    ∧ ∀ i, i < a.functions.length →
        (exprStatements a.functions).getD i emptyStr =
          stmtPre ++ Nat.repr i ++ stmtMid
            ++ normalizeExpression (a.functions.getD i emptyStr) ++ stmtEnd := by
  refine ⟨rfl, rfl, mapWithIndex_length _ _ _, ?_⟩
  intro i hi
  rw [exprStatements, mapWithIndex_getD exprStatement a.functions 0 i hi]
  simp [exprStatement]

/-- Witness for C1 at a concrete two-function request. -/
theorem c1_expression_statements_witness :
    (exprStatements exArgs.functions).length = exArgs.functions.length
    ∧ (exprStatements exArgs.functions).getD 1 emptyStr =
        stmtPre ++ Nat.repr 1 ++ stmtMid
          ++ normalizeExpression (exArgs.functions.getD 1 emptyStr) ++ stmtEnd :=
  ⟨(c1_expression_statements exArgs (by decide) (by decide)).2.2.1,
   (c1_expression_statements exArgs (by decide) (by decide)).2.2.2 1 (by decide)⟩

/-- C4: the handler never raises — every construction outcome yields exactly
one content item; a thrown `Error` yields the fixed-URI error resource whose
page embeds the error message, and any other thrown value yields the same
resource with the fallback text `"Unknown error occurred"`. -/
theorem c4_catch_branch :
    (∀ (a : ToolArgs) (now : Nat) (o : Option ThrownValue),
        (graphHandler a now o).content.length = 1)
    ∧ (∀ (a : ToolArgs) (now : Nat) (m : String),
        graphHandler a now (some (ThrownValue.jsError m)) =
          ⟨[⟨errorUri, ⟨rawHtmlType, errSeg1 ++ m ++ errSeg2⟩, blobEncoding⟩]⟩)
    ∧ (∀ (a : ToolArgs) (now : Nat),
        graphHandler a now (some ThrownValue.nonError) =
          ⟨[⟨errorUri, ⟨rawHtmlType, errSeg1 ++ unknownErrorText ++ errSeg2⟩,
              blobEncoding⟩]⟩) :=
  ⟨fun _ _ o => by cases o <;> rfl, fun _ _ _ => rfl, fun _ _ => rfl⟩

/-- C9: the success document is a function of the request alone — for any two
call times the content (type, html, encoding) agrees and equals
`htmlContent a`; only the uri carries the time. -/
theorem c9_deterministic_html :
    ∀ (a : ToolArgs) (t1 t2 : Nat),
      (graphSuccess a t1).content.map withoutUri
        = (graphSuccess a t2).content.map withoutUri
      ∧ (graphSuccess a t1).content.map (fun r => r.content.htmlString)
        = [htmlContent a]
      ∧ (graphSuccess a t1).content.map UIResource.uri = [successUri t1] :=
  fun _ _ _ => ⟨rfl, rfl, rfl⟩

theorem boundsPre_decomp :
    boundsPre = nlIndentStr ++ setMathBoundsCall ++ boundsCallTail := by
  decide

/-- C2: the document splits around the bounds block; when all four bounds are
present the block is one `setMathBounds` call mapping `xMin` to `left`,
`xMax` to `right`, `yMin` to `bottom` and `yMax` to `top` (and the call text
does occur in it); when any of the four is absent the block is empty. -/
theorem c2_bounds_all_or_none (a : ToolArgs) :
    htmlContent a =
      htmlConfigPart a ++ boundsSegment a.xMin a.xMax a.yMin a.yMax
        ++ htmlAfterBounds a
    ∧ (∀ va vb vc vd : Int, a.xMin = some va → a.xMax = some vb →
        a.yMin = some vc → a.yMax = some vd →
        boundsSegment a.xMin a.xMax a.yMin a.yMax =
          boundsPre ++ toString va ++ boundsRight ++ toString vb ++ boundsBottom
            ++ toString vc ++ boundsTop ++ toString vd ++ boundsEnd
        ∧ jsIncludes (boundsSegment a.xMin a.xMax a.yMin a.yMax)
            setMathBoundsCall = true)
    ∧ ((a.xMin = none ∨ a.xMax = none ∨ a.yMin = none ∨ a.yMax = none) →
        boundsSegment a.xMin a.xMax a.yMin a.yMax = emptyStr) := by
  refine ⟨?_, ?_, ?_⟩
  · simp [htmlContent, htmlConfigPart, htmlAfterBounds, String.append_assoc]
  · intro va vb vc vd h1 h2 h3 h4
    rw [h1, h2, h3, h4]
    refine ⟨rfl, ?_⟩
    refine jsIncludes_of_decomp _ nlIndentStr _
      (boundsCallTail ++ toString va ++ boundsRight ++ toString vb ++ boundsBottom
        ++ toString vc ++ boundsTop ++ toString vd ++ boundsEnd) ?_
    simp only [boundsSegment]
    rw [boundsPre_decomp]
    simp [String.append_assoc]
  · intro h
    rcases h with h | h | h | h
    · rw [h]; cases a.xMax <;> cases a.yMin <;> cases a.yMax <;> rfl
    · rw [h]; cases a.xMin <;> cases a.yMin <;> cases a.yMax <;> rfl
    · rw [h]; cases a.xMin <;> cases a.xMax <;> cases a.yMax <;> rfl
    · rw [h]; cases a.xMin <;> cases a.xMax <;> cases a.yMin <;> rfl

/-- Witness for C2: a full bounds set emits the call; dropping `yMin` alone
(three of four present) emits nothing. -/
theorem c2_bounds_all_or_none_witness :
    boundsSegment exBounds.xMin exBounds.xMax exBounds.yMin exBounds.yMax =
      boundsPre ++ toString (-5 : Int) ++ boundsRight ++ toString (5 : Int)
        ++ boundsBottom ++ toString (-5 : Int) ++ boundsTop ++ toString (5 : Int)
        ++ boundsEnd
    ∧ boundsSegment exPartial.xMin exPartial.xMax exPartial.yMin exPartial.yMax =
        emptyStr :=
  ⟨((c2_bounds_all_or_none exBounds).2.1 (-5) 5 (-5) 5 rfl rfl rfl rfl).1,
   (c2_bounds_all_or_none exPartial).2.2 (Or.inr (Or.inr (Or.inl rfl)))⟩

/-- C5: each omitted parameter independently takes its default, whatever the
other parameters are — an omitted `title` puts `"Function Graph"` in the
page-title slot, and an omitted `showKeypad` / `showGrid` / `showExpressions`
puts `true` in the `keypad` / `graphpaper` / `expressions` slot of the widget
configuration, respectively. -/
theorem c5_defaults (a : ToolArgs) :
    (a.title = none →
      htmlContent a =
        docSeg1 ++ defaultTitle ++ docSeg2 ++ toString a.showKeypadD ++ docSeg3
          ++ toString a.showGridD ++ docSeg4 ++ toString a.showExpressionsD
          ++ docSeg5 ++ boundsSegment a.xMin a.xMax a.yMin a.yMax ++ docSeg6
          ++ functionsSegment a.functions ++ docSeg7)
    ∧ (a.showKeypad = none →
      htmlContent a =
        docSeg1 ++ a.titleD ++ docSeg2 ++ trueText ++ docSeg3
          ++ toString a.showGridD ++ docSeg4 ++ toString a.showExpressionsD
          ++ docSeg5 ++ boundsSegment a.xMin a.xMax a.yMin a.yMax ++ docSeg6
          ++ functionsSegment a.functions ++ docSeg7)
    ∧ (a.showGrid = none →
      htmlContent a =
        docSeg1 ++ a.titleD ++ docSeg2 ++ toString a.showKeypadD ++ docSeg3
          ++ trueText ++ docSeg4 ++ toString a.showExpressionsD
          ++ docSeg5 ++ boundsSegment a.xMin a.xMax a.yMin a.yMax ++ docSeg6
          ++ functionsSegment a.functions ++ docSeg7)
    ∧ (a.showExpressions = none →
      htmlContent a =
        docSeg1 ++ a.titleD ++ docSeg2 ++ toString a.showKeypadD ++ docSeg3
          ++ toString a.showGridD ++ docSeg4 ++ trueText
          ++ docSeg5 ++ boundsSegment a.xMin a.xMax a.yMin a.yMax ++ docSeg6
          ++ functionsSegment a.functions ++ docSeg7)
    ∧ (a.title = none → a.titleD = defaultTitle)
    ∧ (a.showGrid = none → a.showGridD = true)
    ∧ (a.showKeypad = none → a.showKeypadD = true)
    ∧ (a.showExpressions = none → a.showExpressionsD = true) := by
  refine ⟨?_, ?_, ?_, ?_, ?_, ?_, ?_, ?_⟩
  · intro h
    have ht : a.titleD = defaultTitle := by rw [ToolArgs.titleD, h]; rfl
    rw [htmlContent, ht]
  · intro h
    have hk : toString a.showKeypadD = trueText := by
      rw [ToolArgs.showKeypadD, h]; rfl
    rw [htmlContent, hk]
  · intro h
    have hg : toString a.showGridD = trueText := by rw [ToolArgs.showGridD, h]; rfl
    rw [htmlContent, hg]
  · intro h
    have he : toString a.showExpressionsD = trueText := by
      rw [ToolArgs.showExpressionsD, h]; rfl
    rw [htmlContent, he]
  · intro h; rw [ToolArgs.titleD, h]; rfl
  · intro h; rw [ToolArgs.showGridD, h]; rfl
  · intro h; rw [ToolArgs.showKeypadD, h]; rfl
  · intro h; rw [ToolArgs.showExpressionsD, h]; rfl

/-- Witness for C5: a request omitting only `showGrid` (title `"Wave"` and
the other two booleans provided as `false`) gets `true` in the `graphpaper`
slot alone, and a request omitting everything defaultable gets the default
title. -/
theorem c5_defaults_witness :
    htmlContent exGridOnly =
      docSeg1 ++ exGridOnly.titleD ++ docSeg2 ++ toString exGridOnly.showKeypadD
        ++ docSeg3 ++ trueText ++ docSeg4 ++ toString exGridOnly.showExpressionsD
        ++ docSeg5
        ++ boundsSegment exGridOnly.xMin exGridOnly.xMax exGridOnly.yMin
            exGridOnly.yMax ++ docSeg6
        ++ functionsSegment exGridOnly.functions ++ docSeg7
    ∧ htmlContent exDefaults =
        docSeg1 ++ defaultTitle ++ docSeg2 ++ toString exDefaults.showKeypadD
          ++ docSeg3 ++ toString exDefaults.showGridD ++ docSeg4
          ++ toString exDefaults.showExpressionsD ++ docSeg5
          ++ boundsSegment exDefaults.xMin exDefaults.xMax exDefaults.yMin
              exDefaults.yMax ++ docSeg6
          ++ functionsSegment exDefaults.functions ++ docSeg7 :=
  ⟨(c5_defaults exGridOnly).2.2.1 rfl, (c5_defaults exDefaults).1 rfl⟩

set_option maxRecDepth 40000 in
/-- C6: for every request the document ends with the fixed tail, which
registers the `fit` expression exactly once and schedules exactly one
`removeExpression` of the same id after 1000 ms. -/
theorem c6_autofit (a : ToolArgs) :
    htmlContent a = htmlBeforeFit a ++ docSeg7
    ∧ countOcc fitRegisterText.data docSeg7.data = 1
    ∧ countOcc fitRemoveText.data docSeg7.data = 1 :=
  ⟨rfl, by decide, by decide⟩

/-- C7: every call (any outcome) returns exactly one content item with
encoding `"blob"`; the success uri embeds the call time and is injective in
it, while the error uri is the fixed constant. -/
theorem c7_response_envelope :
    (∀ (a : ToolArgs) (now : Nat) (o : Option ThrownValue),
        (graphHandler a now o).content.length = 1
        ∧ (graphHandler a now o).content.map UIResource.encoding = [blobEncoding])
    ∧ (∀ t1 t2 : Nat, t1 ≠ t2 → successUri t1 ≠ successUri t2)
    ∧ (∀ (a : ToolArgs) (now : Nat),
        (graphHandler a now none).content.map UIResource.uri = [successUri now])
    ∧ (∀ (a : ToolArgs) (now : Nat) (e : ThrownValue),
        (graphHandler a now (some e)).content.map UIResource.uri = [errorUri]) := by
  refine ⟨?_, ?_, ?_, ?_⟩
  · intro a now o; cases o <;> exact ⟨rfl, rfl⟩
  · intro t1 t2 hne heq; exact hne (successUri_injective heq)
  · intro a now; rfl
  · intro a now e; rfl

/-- Witness for C7: two distinct call times give distinct success uris. -/
theorem c7_response_envelope_witness : successUri 0 ≠ successUri 1 :=
  c7_response_envelope.2.1 0 1 (by decide)

/-- C8: the normalized expression text of each input function is interpolated
verbatim into the document — for every function index the document decomposes
around the unmodified normalized text, even when the function string holds a
quote or a script-terminating sequence. -/
theorem c8_verbatim_interpolation (a : ToolArgs) (i : Nat)
    (h : i < a.functions.length) :
    ∃ pre post : String,
      htmlContent a =
        pre ++ normalizeExpression (a.functions.getD i emptyStr) ++ post := by
  have hlen : i < (exprStatements a.functions).length := by
    rw [exprStatements, mapWithIndex_length]
    exact h
  obtain ⟨p, q, hpq⟩ := joinSep_getD_decomp exprJoinSep (exprStatements a.functions) i hlen
  have hstmt : (exprStatements a.functions).getD i emptyStr =
      stmtPre ++ Nat.repr i ++ stmtMid
        ++ normalizeExpression (a.functions.getD i emptyStr) ++ stmtEnd := by
    rw [exprStatements, mapWithIndex_getD exprStatement a.functions 0 i h]
    simp [exprStatement]
  refine ⟨htmlBeforeFns a ++ p ++ stmtPre ++ Nat.repr i ++ stmtMid,
    stmtEnd ++ q ++ docSeg7, ?_⟩
  have hdoc : htmlContent a =
      htmlBeforeFns a ++ functionsSegment a.functions ++ docSeg7 := rfl
  rw [hdoc, functionsSegment, hpq, hstmt]
  simp [String.append_assoc]

/-- Witness for C8 at a function string holding a quote and a
script-terminating sequence (which has no `"y="`, so it is its own
normalized text). -/
theorem c8_verbatim_interpolation_witness :
    0 < exInjArgs.functions.length
    ∧ normalizeExpression (exInjArgs.functions.getD 0 emptyStr) = exInj
    ∧ ∃ pre post : String,
        htmlContent exInjArgs =
          pre ++ normalizeExpression (exInjArgs.functions.getD 0 emptyStr) ++ post :=
  ⟨by decide, by decide, c8_verbatim_interpolation exInjArgs 0 (by decide)⟩

/-- C10: the presence test is strictly against `undefined`, so four bounds
all equal to `0` still emit the `setMathBounds` call with `left`, `right`,
`bottom`, `top` all `0`. -/
theorem c10_zero_bounds (a : ToolArgs) (h1 : a.xMin = some 0)
    (h2 : a.xMax = some 0) (h3 : a.yMin = some 0) (h4 : a.yMax = some 0) :
    htmlContent a =
      htmlConfigPart a
        ++ (boundsPre ++ zeroText ++ boundsRight ++ zeroText ++ boundsBottom
              ++ zeroText ++ boundsTop ++ zeroText ++ boundsEnd)
        ++ htmlAfterBounds a
    ∧ jsIncludes (htmlContent a) setMathBoundsCall = true := by
  have hb : boundsSegment a.xMin a.xMax a.yMin a.yMax =
      boundsPre ++ zeroText ++ boundsRight ++ zeroText ++ boundsBottom
        ++ zeroText ++ boundsTop ++ zeroText ++ boundsEnd := by
    rw [h1, h2, h3, h4]; rfl
  have hdec : htmlContent a =
      htmlConfigPart a ++ boundsSegment a.xMin a.xMax a.yMin a.yMax
        ++ htmlAfterBounds a := by
    simp [htmlContent, htmlConfigPart, htmlAfterBounds, String.append_assoc]
  constructor
  · rw [hdec, hb]
  · refine jsIncludes_of_decomp _ (htmlConfigPart a ++ nlIndentStr) _
      (boundsCallTail ++ zeroText ++ boundsRight ++ zeroText ++ boundsBottom
        ++ zeroText ++ boundsTop ++ zeroText ++ boundsEnd ++ htmlAfterBounds a) ?_
    rw [hdec, hb, boundsPre_decomp]
    simp [String.append_assoc]

/-- Witness for C10 at a request whose four bounds are all `0`. -/
theorem c10_zero_bounds_witness :
    jsIncludes (htmlContent exZero) setMathBoundsCall = true :=
  (c10_zero_bounds exZero rfl rfl rfl rfl).2

end DesmosGraph
